import Mathlib

/-!
Shallow embedding of the two coordinator scripts of this repository
(`src/chapter1/chapter01.py` and `src/chapter2/agent.py`).

The reproducible application logic consists of:
* six stub tool handlers (pure string formatters, each preceded by a
  diagnostic `print`),
* the agent configuration data (names, models, instructions, bound tools,
  sub-agent lists),
* the two request runners `run_coordinator` and `run_support_coordinator`,
  which create a session, iterate over the events produced by
  `runner.run(...)`, and convert any exception into an error string.

The external delegation layer (Google ADK runner + LLM) is modelled as a
collaborator function `String → Except String (List Event)`: given the
request it either raises an exception (`Except.error` with the exception's
description, covering both session creation and event production) or yields
a finite sequence of events.  Events carry the two observations the Python
code makes of them: the result of `event.is_final_response()` (a library
method, modelled as a boolean field) and `event.content`, an optional
content value with an optional `text` attribute and an optional list of
parts.  Python truthiness of an optional string (non-None and non-empty) is
made explicit.
-/

namespace AgenticTutorial

/-- A message part, carrying an optional text (`google.genai` `types.Part`). -/
structure Part where
  text : Option String
deriving DecidableEq

/-- Message content as observed by the runners: an optional `text` attribute
(`none` models both an absent attribute and a `None` value, so that
`hasattr(content, 'text') and content.text` is truthiness of this field) and
an optional list of parts. -/
structure Content where
  text : Option String
  parts : Option (List Part)
deriving DecidableEq

/-- An event produced by the delegation layer, as observed by the runners:
the value of `event.is_final_response()` and the optional `event.content`. -/
structure Event where
  is_final_response : Bool
  content : Option Content
deriving DecidableEq

/-- Python truthiness of an optional string: the value when it is present and
non-empty, otherwise nothing. -/
def truthyText : Option String → Option String
  | some t => if t = "" then none else some t
  | none => none

/-- The final-response text extraction of chapter01.py lines 117-125 (and
agent.py lines 188-196): prefer a truthy `content.text`; otherwise, if
`content.parts` is truthy (non-None, non-empty), join the truthy part texts
with a space; otherwise keep `final_result` unchanged. -/
def extractResult (c : Content) (final_result : String) : String :=
  match truthyText c.text with
  | some t => t
  | none =>
    match c.parts with
    | some ps =>
      if ps = [] then final_result
      else String.intercalate " " (ps.filterMap (fun p => truthyText p.text))
    | none => final_result

/-- Outcome of one execution of the loop body: it may break (carrying the
updated `final_result`), return a value from the function, or fall through
to the next iteration. -/
inductive IterOutcome where
  | breakWith (final_result : String)
  | returnWith (value : String)
  | continueWith (final_result : String)
deriving DecidableEq

/-- The loop body of chapter01.py lines 117-129 (and agent.py lines 188-200):
if the event is a final response and its content is truthy (non-None), set
`final_result` from the content and `break`; otherwise print the current
`final_result` and `return` it. No path falls through to the next iteration. -/
def loopIter (final_result : String) (e : Event) : IterOutcome :=
  match e.content with
  | some c =>
    if e.is_final_response then IterOutcome.breakWith (extractResult c final_result)
    else IterOutcome.returnWith final_result
  | none => IterOutcome.returnWith final_result

/-- How a `for` statement over the event sequence can end: by `break`, by a
`return` from inside the body, or by exhausting the sequence. -/
inductive LoopExit where
  | broke (final_result : String)
  | returned (value : String)
  | exhausted (final_result : String)
deriving DecidableEq

/-- Python `for`-statement semantics over the event sequence, with the body
given by `loopIter`: a break or return ends the loop, a fall-through
continues with the remaining events. -/
def forLoop (final_result : String) : List Event → LoopExit
  | [] => LoopExit.exhausted final_result
  | e :: rest =>
    match loopIter final_result e with
    | IterOutcome.breakWith v => LoopExit.broke v
    | IterOutcome.returnWith v => LoopExit.returned v
    | IterOutcome.continueWith v => forLoop v rest

/-- The try-body of the runners after session creation, started with
`final_result = ""`. A `return` inside the loop returns its value; after a
`break`, and likewise when the sequence is exhausted, control falls off the
end of the Python function, which yields `None` (modelled as `none`). -/
def consumeEvents (events : List Event) : Option String :=
  match forLoop "" events with
  | LoopExit.returned v => some v
  | LoopExit.broke _ => none
  | LoopExit.exhausted _ => none

/-- The error string built by the `except` clause of both runners
(chapter01.py line 132, agent.py line 203). -/
def errorMessage (e : String) : String :=
  "An error occurred while processing your request: " ++ e

/-- chapter01.py lines 93-132, `run_coordinator`: create a fresh session and
iterate over the events of `runner.run(...)` for the request; any exception
raised by the delegation collaborator (session creation or event
production, `Except.error`) is caught and converted to an error string. -/
def run_coordinator (collab : String → Except String (List Event))
    (request : String) : Option String :=
  match collab request with
  | Except.error e => some (errorMessage e)
  | Except.ok events => consumeEvents events

/-- agent.py lines 164-203, `run_support_coordinator`: structurally identical
to `run_coordinator` (the two differ only in printed diagnostics). -/
def run_support_coordinator (collab : String → Except String (List Event))
    (request : String) : Option String :=
  match collab request with
  | Except.error e => some (errorMessage e)
  | Except.ok events => consumeEvents events

/-- chapter01.py lines 23-33. -/
def booking_handler (request : String) : String :=
  "Booking action for '" ++ request ++ "' has been simulated."

/-- chapter01.py lines 35-45. -/
def info_handler (request : String) : String :=
  "Information request for '" ++ request ++ "'. Result: Simulated information retrieval."

/-- chapter01.py lines 47-51. -/
def unclear_handler (request : String) : String :=
  "Coordinator could not delegate request: '" ++ request ++ "'. Please clarify."

/-- agent.py lines 67-78. -/
def technical_support_handler (issue : String) : String :=
  "Technical support for '" ++ issue ++ "': Troubleshooting steps have been provided. Issue logged for tracking."

/-- agent.py lines 80-91. -/
def billing_handler (inquiry : String) : String :=
  "Billing inquiry for '" ++ inquiry ++ "': Account information retrieved. Payment status confirmed."

/-- agent.py lines 93-104. -/
def product_info_handler (question : String) : String :=
  "Product information for '" ++ question ++ "': Detailed product specifications and features provided."

/-- The ambient console state a handler call can touch: the list of lines
printed so far. -/
structure World where
  log : List String
deriving DecidableEq

/-- Printing appends a line to the console log. -/
def printLine (w : World) (s : String) : World :=
  ⟨w.log ++ [s]⟩

/-- `booking_handler` with its diagnostic print made explicit. -/
def booking_handlerCall (w : World) (request : String) : World × String :=
  (printLine w "------- Booking Handler Called -------", booking_handler request)

/-- `info_handler` with its diagnostic print made explicit. -/
def info_handlerCall (w : World) (request : String) : World × String :=
  (printLine w "------- Info Handler Called -------", info_handler request)

/-- `unclear_handler` performs no print. -/
def unclear_handlerCall (w : World) (request : String) : World × String :=
  (w, unclear_handler request)

/-- `technical_support_handler` with its diagnostic print made explicit. -/
def technical_support_handlerCall (w : World) (issue : String) : World × String :=
  (printLine w "------- Technical Support Handler Called -------", technical_support_handler issue)

/-- `billing_handler` with its diagnostic print made explicit. -/
def billing_handlerCall (w : World) (inquiry : String) : World × String :=
  (printLine w "------- Billing Handler Called -------", billing_handler inquiry)

/-- `product_info_handler` with its diagnostic print made explicit. -/
def product_info_handlerCall (w : World) (question : String) : World × String :=
  (printLine w "------- Product Info Handler Called -------", product_info_handler question)

/-- `FunctionTool(f)`: wraps a handler, recording the function's name. -/
structure FunctionTool where
  name : String
  fn : String → String

/-- An ADK `Agent(...)` configuration: name, model, optional instruction,
description, bound tools and sub-agents. -/
inductive AgentCfg : Type where
  | mk (name : String) (model : String) (instruction : Option String)
      (description : String) (tools : List FunctionTool)
      (sub_agents : List AgentCfg)

/-- The agent's name. -/
def AgentCfg.name : AgentCfg → String
  | .mk n _ _ _ _ _ => n

/-- The agent's bound tools. -/
def AgentCfg.tools : AgentCfg → List FunctionTool
  | .mk _ _ _ _ ts _ => ts

/-- The agent's sub-agents. -/
def AgentCfg.sub_agents : AgentCfg → List AgentCfg
  | .mk _ _ _ _ _ ss => ss

/-- chapter01.py line 54. -/
def booking_tool : FunctionTool :=
  ⟨"booking_handler", booking_handler⟩

/-- chapter01.py line 55. -/
def info_tool : FunctionTool :=
  ⟨"info_handler", info_handler⟩

/-- chapter01.py lines 58-64. -/
def booking_agent : AgentCfg :=
  .mk "Booker" "gemini-2.5-flash" none
    "A specialist agent that handles all flights and hotel booking requests by calling the booking tool."
    [booking_tool] []

/-- chapter01.py lines 66-72. -/
def info_agent : AgentCfg :=
  .mk "Info" "gemini-2.5-flash" none
    "A specialist agent that handles all general information and answers user questions by calling the info tool."
    [info_tool] []

/-- chapter01.py lines 75-87: the Coordinator, with no tools of its own and
exactly the two specialists as sub-agents. -/
def root_agent : AgentCfg :=
  .mk "Coordinator" "gemini-2.5-flash"
    (some ("You are the main coordinator. Your only task is to analyze incoming user requests "
      ++ "and delegate them to the appropriate specialist agents. Do not try to answer the user directly. \n"
      ++ "- For any requests related to booking flights or hotels, delegate to the 'Booker' agent. \n "
      ++ "- For all other general information questions, delegate to the 'Info' agent. \n"))
    "A coordinator that routes user requests to the correct specialist agent."
    [] [booking_agent, info_agent]

/-- All tools bound anywhere in the chapter-1 agent tree (the tree is two
levels deep: the root's own tools plus those of its direct sub-agents). -/
def allTools (a : AgentCfg) : List FunctionTool :=
  a.tools ++ (a.sub_agents.map AgentCfg.tools).flatten

/-- Two strings with distinct first characters are distinct. -/
theorem string_ne_of_head_ne {a b : String}
    (h : a.data.head? ≠ b.data.head?) : a ≠ b :=
  fun he => h (congrArg (fun s => s.data.head?) he)

/-- The booking handler's output starts with the character B. -/
theorem booking_handler_head (u : String) :
    (booking_handler u).data.head? = some 'B' := by
  unfold booking_handler
  rw [String.data_append, String.data_append]
  rfl

/-- The info handler's output starts with the character I. -/
theorem info_handler_head (u : String) :
    (info_handler u).data.head? = some 'I' := by
  unfold info_handler
  rw [String.data_append, String.data_append]
  rfl

/-- The unclear handler's output starts with the character C. -/
theorem unclear_handler_head (s : String) :
    (unclear_handler s).data.head? = some 'C' := by
  unfold unclear_handler
  rw [String.data_append, String.data_append]
  rfl

/-- No output of the booking handler equals an output of the unclear handler. -/
theorem booking_handler_ne_unclear (u s : String) :
    booking_handler u ≠ unclear_handler s := by
  refine string_ne_of_head_ne ?_
  rw [booking_handler_head, unclear_handler_head]
  decide

/-- No output of the info handler equals an output of the unclear handler. -/
theorem info_handler_ne_unclear (u s : String) :
    info_handler u ≠ unclear_handler s := by
  refine string_ne_of_head_ne ?_
  rw [info_handler_head, unclear_handler_head]
  decide

/-- C1: the claim says the runners return the text of the first final
response. On the code they do not: the loop body sets `final_result` and
breaks, but there is no return statement after the loop, so control falls
off the end of the function and Python returns None. At a collaborator that
yields exactly one final-response event carrying the text "hello", both
runners evaluate to `none` instead of `some "hello"`. -/
theorem c1_runner_drops_final_response_text :
    run_coordinator
        (fun _ => Except.ok [⟨true, some ⟨some "hello", none⟩⟩])
        "Book me a hotel in Paris." = none
    ∧ run_support_coordinator
        (fun _ => Except.ok [⟨true, some ⟨some "hello", none⟩⟩])
        "What are the payment options available?" = none := by
  constructor <;> rfl

/-- C2: the claim says that when no event is a final response carrying text
the runners return the empty string. On the code this fails already at the
empty event sequence: the loop body never runs, control falls off the end of
the function, and Python returns None rather than the empty string. -/
theorem c2_no_final_event_returns_none :
    run_coordinator (fun _ => Except.ok []) "req" = none
    ∧ run_support_coordinator (fun _ => Except.ok []) "req" = none
    ∧ (none : Option String) ≠ some "" := by
  refine ⟨rfl, rfl, ?_⟩
  decide

/-- C3: if the delegation collaborator (session creation or event
production) raises an exception, both runners catch it and return the fixed
prefix "An error occurred while processing your request: " followed by the
exception's description, and do not propagate it (they return a value). -/
theorem c3_exception_becomes_error_string
    (collab : String → Except String (List Event)) (request msg : String)
    (h : collab request = Except.error msg) :
    run_coordinator collab request
      = some ("An error occurred while processing your request: " ++ msg)
    ∧ run_support_coordinator collab request
      = some ("An error occurred while processing your request: " ++ msg) := by
  constructor <;> simp [run_coordinator, run_support_coordinator, errorMessage, h]

/-- Witness for C3 at a collaborator that raises the exception "boom". -/
theorem c3_exception_becomes_error_string_witness :
    run_coordinator (fun _ => Except.error "boom") "req"
      = some ("An error occurred while processing your request: " ++ "boom")
    ∧ run_support_coordinator (fun _ => Except.error "boom") "req"
      = some ("An error occurred while processing your request: " ++ "boom") :=
  c3_exception_becomes_error_string (fun _ => Except.error "boom") "req" "boom" rfl

/-- C4: for every input string, each of the five stub handlers returns that
string verbatim, surrounded by the handler's fixed template text. -/
theorem c4_handlers_embed_input_verbatim (s : String) :
    booking_handler s
      = "Booking action for '" ++ s ++ "' has been simulated."
    ∧ info_handler s
      = "Information request for '" ++ s ++ "'. Result: Simulated information retrieval."
    ∧ technical_support_handler s
      = "Technical support for '" ++ s ++ "': Troubleshooting steps have been provided. Issue logged for tracking."
    ∧ billing_handler s
      = "Billing inquiry for '" ++ s ++ "': Account information retrieved. Payment status confirmed."
    ∧ product_info_handler s
      = "Product information for '" ++ s ++ "': Detailed product specifications and features provided." :=
  ⟨rfl, rfl, rfl, rfl, rfl⟩

/-- C5: the booking stub applied to "Book me a hotel in Paris." yields
exactly the expected string. -/
theorem c5_booking_example :
    booking_handler "Book me a hotel in Paris."
      = "Booking action for 'Book me a hotel in Paris.' has been simulated." :=
  rfl

/-- C6: the billing stub applied to "What are the payment options
available?" yields exactly the expected string. -/
theorem c6_billing_example :
    billing_handler "What are the payment options available?"
      = "Billing inquiry for 'What are the payment options available?': Account information retrieved. Payment status confirmed." :=
  rfl

/-- C7: every stub handler is pure, deterministic and total: the string each
call returns depends only on the input, never on the ambient console state,
so two calls with the same input yield identical outputs, and each call
agrees with the handler's pure string function (totality is immediate: the
embedded handlers produce a string for every input). -/
theorem c7_handlers_pure_deterministic (s : String) (w w' : World) :
    ((booking_handlerCall w s).2 = (booking_handlerCall w' s).2
      ∧ (booking_handlerCall w s).2 = booking_handler s)
    ∧ ((info_handlerCall w s).2 = (info_handlerCall w' s).2
      ∧ (info_handlerCall w s).2 = info_handler s)
    ∧ ((unclear_handlerCall w s).2 = (unclear_handlerCall w' s).2
      ∧ (unclear_handlerCall w s).2 = unclear_handler s)
    ∧ ((technical_support_handlerCall w s).2 = (technical_support_handlerCall w' s).2
      ∧ (technical_support_handlerCall w s).2 = technical_support_handler s)
    ∧ ((billing_handlerCall w s).2 = (billing_handlerCall w' s).2
      ∧ (billing_handlerCall w s).2 = billing_handler s)
    ∧ ((product_info_handlerCall w s).2 = (product_info_handlerCall w' s).2
      ∧ (product_info_handlerCall w s).2 = product_info_handler s) :=
  ⟨⟨rfl, rfl⟩, ⟨rfl, rfl⟩, ⟨rfl, rfl⟩, ⟨rfl, rfl⟩, ⟨rfl, rfl⟩, ⟨rfl, rfl⟩⟩

/-- C8: the event-consumption loop executes at most one iteration: the loop
body never falls through to a next iteration (its two paths end in break or
return), so a run of the loop on a non-empty sequence ends in a break or a
return and its result is independent of every event after the first. -/
theorem c8_loop_at_most_one_iteration (fr : String) (e : Event)
    (rest₁ rest₂ : List Event) :
    (∀ v, loopIter fr e ≠ IterOutcome.continueWith v)
    ∧ forLoop fr (e :: rest₁) = forLoop fr (e :: rest₂)
    ∧ ((∃ v, forLoop fr (e :: rest₁) = LoopExit.broke v)
      ∨ (∃ v, forLoop fr (e :: rest₁) = LoopExit.returned v)) := by
  obtain ⟨b, oc⟩ := e
  refine ⟨?_, ?_, ?_⟩
  · intro v
    cases oc with
    | none => simp [loopIter]
    | some c => cases b <;> simp [loopIter]
  · cases oc with
    | none => simp [forLoop, loopIter]
    | some c => cases b <;> simp [forLoop, loopIter]
  · cases oc with
    | none => exact Or.inr ⟨fr, by simp [forLoop, loopIter]⟩
    | some c =>
      cases b with
      | false => exact Or.inr ⟨fr, by simp [forLoop, loopIter]⟩
      | true => exact Or.inl ⟨extractResult c fr, by simp [forLoop, loopIter]⟩

/-- C9: whenever the collaborator's first event is not a final response with
content, both runners return the empty string at once, whatever the later
events are (in particular even when a later event is a final response
carrying text). -/
theorem c9_first_event_not_final_returns_empty
    (collab : String → Except String (List Event)) (request : String)
    (e : Event) (rest : List Event)
    (h : collab request = Except.ok (e :: rest))
    (hne : ¬(e.is_final_response = true ∧ e.content.isSome = true)) :
    run_coordinator collab request = some ""
    ∧ run_support_coordinator collab request = some "" := by
  have hiter : loopIter "" e = IterOutcome.returnWith "" := by
    unfold loopIter
    cases hc : e.content with
    | none => rfl
    | some c =>
      have hb : e.is_final_response = false := by
        rcases Bool.eq_false_or_eq_true e.is_final_response with h1 | h1
        · exact absurd ⟨h1, by simp [hc]⟩ hne
        · exact h1
      simp [hb]
  constructor <;>
    simp [run_coordinator, run_support_coordinator, h, consumeEvents, forLoop, hiter]

/-- Witness for C9: the first event is non-final and a later event is a
final response carrying text; both runners return the empty string. -/
theorem c9_first_event_not_final_returns_empty_witness :
    run_coordinator
      (fun _ => Except.ok [⟨false, none⟩, ⟨true, some ⟨some "late", none⟩⟩])
      "req" = some ""
    ∧ run_support_coordinator
      (fun _ => Except.ok [⟨false, none⟩, ⟨true, some ⟨some "late", none⟩⟩])
      "req" = some "" :=
  c9_first_event_not_final_returns_empty
    (fun _ => Except.ok [⟨false, none⟩, ⟨true, some ⟨some "late", none⟩⟩])
    "req" ⟨false, none⟩ [⟨true, some ⟨some "late", none⟩⟩] rfl (by decide)

/-- C10: in the chapter-1 configuration the coordinator's sub-agent list is
exactly Booker then Info; the root agent has no tools of its own and the
tools bound anywhere in the tree are exactly the booking and info tools,
which wrap `booking_handler` and `info_handler`; and no tool bound in the
tree can ever produce a string that `unclear_handler` produces. -/
theorem c10_unclear_handler_unreachable :
    root_agent.sub_agents.map AgentCfg.name = ["Booker", "Info"]
    ∧ root_agent.tools = []
    ∧ allTools root_agent = [booking_tool, info_tool]
    ∧ booking_tool.fn = booking_handler
    ∧ info_tool.fn = info_handler
    ∧ (∀ t ∈ allTools root_agent, ∀ u s, t.fn u ≠ unclear_handler s) := by
  refine ⟨rfl, rfl, rfl, rfl, rfl, ?_⟩
  intro t ht u s
  rw [show allTools root_agent = [booking_tool, info_tool] from rfl] at ht
  rcases List.mem_cons.mp ht with h1 | h1
  · subst h1
    exact booking_handler_ne_unclear u s
  · rcases List.mem_cons.mp h1 with h2 | h2
    · subst h2
      exact info_handler_ne_unclear u s
    · exact absurd h2 (List.not_mem_nil t)

/-- Witness for C10 at the booking tool and concrete strings. -/
theorem c10_unclear_handler_unreachable_witness :
    booking_tool ∈ allTools root_agent
    ∧ booking_tool.fn "Book me a hotel in Paris." ≠ unclear_handler "Book me a hotel in Paris." :=
  ⟨List.mem_cons_self booking_tool [info_tool],
    c10_unclear_handler_unreachable.2.2.2.2.2 booking_tool
      (List.mem_cons_self booking_tool [info_tool])
      "Book me a hotel in Paris." "Book me a hotel in Paris."⟩

end AgenticTutorial
